import Mathlib

/-!
Verification of the phonon document pipeline
(`atomate2/common/schemas/phonons.py`, `PhononBSDOSDoc.from_forces_born` and
`PhononBSDOSDoc.get_kpath`) against its natural-language specification.

The Python pipeline is shallowly embedded: numeric stand-ins use `ℤ` and `ℚ`,
external collaborators (phonopy, pheasy, hiphive, pymatgen) enter as oracle
fields of the input record, and the observable behaviour of one call to
`from_forces_born` is a trace of events together with either an error message
(an uncaught Python exception) or the produced document.
-/

namespace Phonons

/-- External constant `phonopy.units.VaspToTHz` (value irrelevant to the
claims; kept as a rational stand-in). -/
def vaspToTHz : ℚ := 15633302 / 1000000

/-- External constant `atomate2.aims.utils.units.omegaToTHz` (value
irrelevant to the claims; kept as a rational stand-in). -/
def omegaToTHz : ℚ := 15257499 / 1000000

/-- `get_factor` (phonons.py lines 48-71): frequency conversion factor per
code, `ValueError` for an unknown code. -/
def getFactor (code : String) : Except String ℚ :=
  if code = "forcefields" ∨ code = "vasp" then Except.ok vaspToTHz
  else if code = "aims" then Except.ok omegaToTHz
  else Except.error ("Frequency conversion factor for code (" ++ code ++ ") not defined.")

/-- Elementwise subtraction of two flattened force/displacement arrays
(stand-in for numpy array subtraction). -/
def zipSub (a b : List ℤ) : List ℤ := a.zipWith (fun x y => x - y) b

/-- Accumulator branch for forces (phonons.py lines 332-348).
`f_disp_n1 = len(phonon.displacements)` is the nominal displacement count of
the scheme.  When `f_disp_n1 < 1` the force samples are used unmodified;
otherwise the last sample's forces are subtracted from every sample
(`set_of_forces_a_o - set_of_forces_a_o[-1]`) and the last sample is dropped
(`[:-1]`). -/
def accumulateForces (f_disp_n1 : Nat) (forces : List (List ℤ)) : List (List ℤ) :=
  if f_disp_n1 < 1 then forces
  else ((forces.map (fun f => zipSub f (forces.getLast?.getD []))).dropLast)

/-- Accumulator branch for displacements (phonons.py lines 335-351).
When `f_disp_n1 < 1` the raw cartesian coordinates are used as-is; otherwise
the supercell reference positions are subtracted and the last sample is
dropped. -/
def accumulateDisps (f_disp_n1 : Nat) (positions : List (List ℤ))
    (ref : List ℤ) : List (List ℤ) :=
  if f_disp_n1 < 1 then positions
  else ((positions.map (fun p => zipSub p ref)).dropLast)

/-- Modelled from the spec: `has_imaginary_freq` of
`pymatgen.phonon.bandstructure` (not part of src/; only its call sites at
lines 525-527, 562-564, 629-630 are).  The spec says the flag is true iff
some frequency branch value lies below `-tol`. -/
def hasImaginaryFreq (freqs : List ℚ) (tol : ℚ) : Bool :=
  freqs.any (fun f => decide (f < -tol))

/-- `get_kpath` scheme dispatch (phonons.py lines 798-807): the recognised
scheme names, with `ValueError` otherwise.  The kpath payload itself comes
from external pymatgen classes and is not modelled. -/
def getKpath (scheme : String) : Except String Unit :=
  if scheme = "setyawan_curtarolo" ∨ scheme = "latimer_munro" ∨ scheme = "hinuma" then
    Except.ok ()
  else if scheme = "seekpath" then Except.ok ()
  else Except.error "Unexpected kpath_scheme"

/-- Bounded helper for `arange`: emit `t, t+step, ...` while `< stop`,
with explicit fuel. -/
def arangeAux : Nat → ℤ → ℤ → ℤ → List ℤ
  | 0, _, _, _ => []
  | fuel + 1, t, stop, step =>
      if t < stop then t :: arangeAux fuel (t + step) stop step else []

/-- `np.arange(start, stop, step)` over integers for a positive step: the
half-open grid `[start, stop)` with the given stride (phonons.py
lines 661-663). -/
def arange (start stop step : ℤ) : List ℤ :=
  if 0 < step then arangeAux (stop - start).toNat start stop step else []

/-- `np.all(np.isclose(borns, 0.0))` with numpy defaults: against zero the
tolerance reduces to `atol = 1e-8` (phonons.py line 436). -/
def allBornsClose (borns : List ℚ) : Bool :=
  borns.all (fun b => decide (|b| ≤ mkRat 1 100000000))

/-- Observable events of one `from_forces_born` call, in program order. -/
inductive Ev where
  | constructPhonopy (magmoms : Option (List ℤ))
  | writePoscar
  | writeSposcar
  | writeDispPickle
  | writeForcePickle
  | setNac
  | pheasyCall (passNo : Nat) (idx : Nat) (exitCode : ℤ)
  | parseForceConstants (file : String)
  | savePhonopyYaml
  | kpathResolve (scheme : String)
  | runBandStructure (withEigenvectors : Bool)
  | hiphiveFit (cutoffs : List ℚ) (rules : List String) (alpha : ℚ) (inputFC : ℚ)
  | runMeshDos
  deriving Repr, DecidableEq

/-- The slice of the produced `PhononBSDOSDoc` that the claims are about. -/
structure Doc where
  hasImaginaryModes : Bool
  born : Option (List ℚ)
  epsilonStatic : Option ℚ
  temperatures : List ℤ
  freeEnergies : List ℚ
  entropies : List ℚ
  internalEnergies : List ℚ
  heatCapacities : List ℚ
  deriving Repr, DecidableEq

/-- Inputs of one `from_forces_born` call.  Fields that the Python code
receives from external collaborators (phonopy displacement generation, the
pheasy subprocess, band-structure diagonalisation, symmetrisation, DOS
integrands) are oracle values fixed per call.  The exit codes of the pheasy
invocations are passed to `runPipeline` separately. -/
structure Inputs where
  code : String
  useSymmetrizedStructure : Option String
  magmoms : Option (List ℤ)
  structureLen : Nat
  born : Option (List ℚ)
  epsilonStatic : Option ℚ
  symBorns : List ℚ
  symEps : ℚ
  nominalDispCount : Nat
  forces : List (List ℤ)
  fcPrimary : Option ℚ
  freqsPrimary : List ℚ
  maxCutoffEstimate : ℚ
  freqsHiphive : List ℚ
  fcCutoff : Option ℚ
  freqsCutoff : List ℚ
  tolImaginary : Option ℚ
  kpathScheme : String
  bandStructureEigenvectors : Bool
  tmin : Option ℤ
  tmax : Option ℤ
  tstep : Option ℤ
  helmholtz : ℤ → ℚ
  entropyFn : ℤ → ℚ
  internalFn : ℤ → ℚ
  heatCapFn : ℤ → ℚ

/-- Imaginary-mode check as used at all three call sites:
`bs_symm_line.has_imaginary_freq(tol=kwargs.get("tol_imaginary_modes", 1e-5))`
(phonons.py lines 525-527, 562-564, 629-630). -/
def imagCheck (inp : Inputs) (freqs : List ℚ) : Bool :=
  hasImaginaryFreq freqs (inp.tolImaginary.getD (mkRat 1 100000))

/-- Magnetic-moment guard (phonons.py lines 290-302): with moments present
and `primitive_matrix = "auto"` (i.e. `use_symmetrized_structure` not
`"primitive"`), a nonzero moment raises `ValueError`; otherwise the moments
are set to `None`.  Returns the moments the `Phonopy` object is built with. -/
def magmomStage (inp : Inputs) : Except String (Option (List ℤ)) :=
  match inp.magmoms with
  | some ms =>
      if inp.useSymmetrizedStructure ≠ some "primitive" then
        if ms.any (fun m => decide (m ≠ 0)) then
          Except.error "For materials with magnetic moments, use_symmetrized_structure must be primitive"
        else Except.ok none
      else Except.ok (some ms)
  | none => Except.ok none

/-- Born/epsilon handling (phonons.py lines 421-445): with both supplied,
a count mismatch raises `ValueError`; otherwise the symmetrised values are
kept and, only for `code == "vasp"` with some symmetrised charge not close
to zero, the NAC parameters are attached to the phonon object. -/
def bornStage (inp : Inputs) : List Ev × Except String (Option (List ℚ) × Option ℚ) :=
  match inp.born, inp.epsilonStatic with
  | some b, some _e =>
      if inp.structureLen = b.length then
        if inp.code = "vasp" ∧ allBornsClose inp.symBorns = false then
          ([Ev.setNac], Except.ok (some inp.symBorns, some inp.symEps))
        else ([], Except.ok (some inp.symBorns, some inp.symEps))
      else ([], Except.error "Number of born charges does not agree with number of atoms")
  | _, _ => ([], Except.ok (none, none))

/-- Temperature grid (phonons.py lines 661-663):
`np.arange(kwargs.get("tmin", 0), kwargs.get("tmax", 500), kwargs.get("tstep", 10))`. -/
def tempGrid (inp : Inputs) : List ℤ :=
  arange (inp.tmin.getD 0) (inp.tmax.getD 500) (inp.tstep.getD 10)

/-- Document assembly (phonons.py lines 665-687 and 733-780): the four
thermodynamic lists are comprehensions over the one temperature grid. -/
def buildDoc (inp : Inputs) (imag : Bool) (borns : Option (List ℚ))
    (eps : Option ℚ) : Doc :=
  { hasImaginaryModes := imag
    born := borns
    epsilonStatic := eps
    temperatures := tempGrid inp
    freeEnergies := (tempGrid inp).map inp.helmholtz
    entropies := (tempGrid inp).map inp.entropyFn
    internalEnergies := (tempGrid inp).map inp.internalFn
    heatCapacities := (tempGrid inp).map inp.heatCapFn }

/-- DOS/thermodynamics stage (phonons.py lines 640-780): always reached once
refinement is over; meshes, integrates and returns the document. -/
def dosStage (inp : Inputs) (imag : Bool) (borns : Option (List ℚ))
    (eps : Option ℚ) : List Ev × Except String Doc :=
  ([Ev.runMeshDos], Except.ok (buildDoc inp imag borns eps))

/-- Exit code of the i-th pheasy invocation of a run (oracle; the Python
code never reads the value returned by `subprocess.call`). -/
def exitAt (exits : List ℤ) (i : Nat) : ℤ := exits.getD i 0

/-- The four pheasy invocations of one fit, tagged with the pass number
(phonons.py lines 474-477 and 587-590). -/
def pheasyCalls (passNo : Nat) (exits : List ℤ) : List Ev :=
  [Ev.pheasyCall passNo 0 (exitAt exits 0), Ev.pheasyCall passNo 1 (exitAt exits 1),
   Ev.pheasyCall passNo 2 (exitAt exits 2), Ev.pheasyCall passNo 3 (exitAt exits 3)]

/-- Second corrective pass (phonons.py lines 570-633): re-run pheasy with
the reduced cutoff `--c2 10.0`, re-parse `FORCE_CONSTANTS`, save, resolve
the kpath again, recompute bands with eigenvectors, re-evaluate the
imaginary flag; the result of this check becomes the document's flag. -/
def cutoffPass (inp : Inputs) (exits : List ℤ) (borns : Option (List ℚ))
    (eps : Option ℚ) : List Ev × Except String Doc :=
  match inp.fcCutoff with
  | none =>
      (pheasyCalls 2 exits ++ [Ev.parseForceConstants "FORCE_CONSTANTS"],
        Except.error "FORCE_CONSTANTS missing or malformed")
  | some _fc2 =>
      match getKpath inp.kpathScheme with
      | Except.error e =>
          (pheasyCalls 2 exits ++ [Ev.parseForceConstants "FORCE_CONSTANTS",
             Ev.savePhonopyYaml, Ev.kpathResolve inp.kpathScheme], Except.error e)
      | Except.ok _ =>
          (pheasyCalls 2 exits ++ [Ev.parseForceConstants "FORCE_CONSTANTS",
             Ev.savePhonopyYaml, Ev.kpathResolve inp.kpathScheme,
             Ev.runBandStructure true]
             ++ (dosStage inp (imagCheck inp inp.freqsCutoff) borns eps).1,
            (dosStage inp (imagCheck inp inp.freqsCutoff) borns eps).2)

/-- Events of the hiphive corrective fit (phonons.py lines 530-553): the
rotational-sum-rule fit with its full argument list, the re-parse of the
corrected IFC artifact, and the band recomputation with eigenvectors. -/
def hiphiveEvents (inp : Inputs) (fc : ℚ) : List Ev :=
  [Ev.hiphiveFit [inp.maxCutoffEstimate - mkRat 1 100] ["Huang", "Born-Huang"]
     (mkRat 1 1000000) fc,
   Ev.parseForceConstants "FORCE_CONSTANTS_new",
   Ev.runBandStructure true]

/-- First corrective pass (phonons.py lines 530-564): cluster space at
`estimate_maximum_cutoff(supercell) - 0.01` (pairwise only), parameters
extracted from the parsed `FORCE_CONSTANTS` artifact `fc`, rotational sum
rules `['Huang', 'Born-Huang']` enforced with ridge parameter
`alpha = 1e-6`, corrected IFCs written and re-parsed, bands recomputed with
eigenvectors.  If the hiphive check is still imaginary the cutoff pass runs;
otherwise the document's flag stays at the primary value `imagPrimary`
(the code never reassigns `imaginary_modes` in that case). -/
def hiphiveStage (inp : Inputs) (exits : List ℤ) (fc : ℚ) (imagPrimary : Bool)
    (borns : Option (List ℚ)) (eps : Option ℚ) : List Ev × Except String Doc :=
  if imagCheck inp inp.freqsHiphive then
    (hiphiveEvents inp fc ++ (cutoffPass inp exits borns eps).1,
      (cutoffPass inp exits borns eps).2)
  else
    (hiphiveEvents inp fc ++ (dosStage inp imagPrimary borns eps).1,
      (dosStage inp imagPrimary borns eps).2)

/-- Band-structure stage after the primary fit (phonons.py lines 493-568):
resolve the kpath (`ValueError` on an unknown scheme), run the band
structure with the caller's eigenvector flag, evaluate the imaginary-mode
check; on imaginary modes enter the first corrective pass, else go straight
to DOS with the flag false. -/
def bandStage (inp : Inputs) (exits : List ℤ) (fc : ℚ) (borns : Option (List ℚ))
    (eps : Option ℚ) : List Ev × Except String Doc :=
  match getKpath inp.kpathScheme with
  | Except.error e => ([Ev.kpathResolve inp.kpathScheme], Except.error e)
  | Except.ok _ =>
      if imagCheck inp inp.freqsPrimary then
        ([Ev.kpathResolve inp.kpathScheme,
          Ev.runBandStructure inp.bandStructureEigenvectors]
           ++ (hiphiveStage inp exits fc true borns eps).1,
          (hiphiveStage inp exits fc true borns eps).2)
      else
        ([Ev.kpathResolve inp.kpathScheme,
          Ev.runBandStructure inp.bandStructureEigenvectors]
           ++ (dosStage inp false borns eps).1,
          (dosStage inp false borns eps).2)

/-- Primary solver stage (phonons.py lines 458-490): four pheasy
invocations whose exit codes are never inspected, then
`parse_FORCE_CONSTANTS("FORCE_CONSTANTS")` — an uncaught exception when the
artifact is missing or malformed — then symmetrisation and
`phonon.save("phonopy.yaml")`. -/
def solverStage (inp : Inputs) (exits : List ℤ) (borns : Option (List ℚ))
    (eps : Option ℚ) : List Ev × Except String Doc :=
  match inp.fcPrimary with
  | none =>
      (pheasyCalls 1 exits ++ [Ev.parseForceConstants "FORCE_CONSTANTS"],
        Except.error "FORCE_CONSTANTS missing or malformed")
  | some fc =>
      (pheasyCalls 1 exits ++ [Ev.parseForceConstants "FORCE_CONSTANTS",
         Ev.savePhonopyYaml] ++ (bandStage inp exits fc borns eps).1,
        (bandStage inp exits fc borns eps).2)

/-- Setup events once the guards passed (phonons.py lines 304-366):
the `Phonopy` object (with the moments it was given), the POSCAR/SPOSCAR
structure files, and the displacement/force dataset pickles. -/
def setupEvents (cellMagmoms : Option (List ℤ)) : List Ev :=
  [Ev.constructPhonopy cellMagmoms, Ev.writePoscar, Ev.writeSposcar,
   Ev.writeDispPickle, Ev.writeForcePickle]

/-- One call of `PhononBSDOSDoc.from_forces_born` (phonons.py
lines 236-780) as a trace of events plus either an error (uncaught Python
exception) or the produced document.  Program order: conversion factor,
magnetic-moment guard, `Phonopy` construction, POSCAR/SPOSCAR structure
files, dataset pickles, Born handling, pheasy fit, band structure,
refinement, DOS/thermodynamics, document. -/
def runPipeline (inp : Inputs) (exits : List ℤ) : List Ev × Except String Doc :=
  match getFactor inp.code with
  | Except.error e => ([], Except.error e)
  | Except.ok _f =>
      match magmomStage inp with
      | Except.error e => ([], Except.error e)
      | Except.ok cellMagmoms =>
          match bornStage inp with
          | (trB, Except.error e) => (setupEvents cellMagmoms ++ trB, Except.error e)
          | (trB, Except.ok (bornsOut, epsOut)) =>
              (setupEvents cellMagmoms ++ trB
                 ++ (solverStage inp exits bornsOut epsOut).1,
                (solverStage inp exits bornsOut epsOut).2)

/-- An event that opens a corrective pass: the hiphive rotational-sum-rule
fit, or the first pheasy invocation of the reduced-cutoff refit. -/
def isCorrectivePassStart : Ev → Bool
  | Ev.hiphiveFit _ _ _ _ => true
  | Ev.pheasyCall p i _ => p == 2 && i == 0
  | _ => false

/-- Number of corrective passes recorded in a trace. -/
def correctivePasses (tr : List Ev) : Nat :=
  (tr.filter isCorrectivePassStart).length

/-- The hiphive-fit events of a trace (the corrective parameterisation
actually performed, with its full argument list). -/
def hiphiveFitEvents (tr : List Ev) : List Ev :=
  tr.filter (fun e => match e with | Ev.hiphiveFit _ _ _ _ => true | _ => false)

/-- Whether a pipeline result is a produced document. -/
def isOkDoc : Except String Doc → Bool
  | Except.ok _ => true
  | Except.error _ => false

/-- Baseline concrete input for witnesses: a well-formed "vasp" call with a
stable primary fit and a small temperature grid. -/
def baseInputs : Inputs where
  code := "vasp"
  useSymmetrizedStructure := none
  magmoms := none
  structureLen := 2
  born := none
  epsilonStatic := none
  symBorns := []
  symEps := 0
  nominalDispCount := 1
  forces := [[0], [1]]
  fcPrimary := some 1
  freqsPrimary := []
  maxCutoffEstimate := 5
  freqsHiphive := []
  fcCutoff := some 1
  freqsCutoff := []
  tolImaginary := none
  kpathScheme := "seekpath"
  bandStructureEigenvectors := false
  tmin := none
  tmax := some 30
  tstep := none
  helmholtz := fun _ => 0
  entropyFn := fun _ => 0
  internalFn := fun _ => 0
  heatCapFn := fun _ => 0

/-- Concrete input with a Born-charge count mismatch (3 charges, 2 atoms). -/
def inpMismatch : Inputs :=
  { baseInputs with born := some [1, 2, 3], epsilonStatic := some 1 }

/-- Concrete input whose primary-fit FORCE_CONSTANTS artifact is missing. -/
def inpNoFC : Inputs :=
  { baseInputs with fcPrimary := none }

/-- Concrete input with an imaginary primary spectrum that the hiphive pass
stabilises; dataset variant A. -/
def inpImagA : Inputs :=
  { baseInputs with freqsPrimary := [-1], forces := [[0], [1]] }

/-- Concrete input with an imaginary primary spectrum that the hiphive pass
stabilises; dataset variant B (same oracles, different force dataset). -/
def inpImagB : Inputs :=
  { baseInputs with freqsPrimary := [-1], forces := [[7], [9]] }

/-- Concrete input with an unrecognised kpath scheme name. -/
def inpBadPath : Inputs :=
  { baseInputs with kpathScheme := "foo" }

/-- Concrete input with a nonzero magnetic moment and non-primitive
symmetrisation setting. -/
def inpMagBad : Inputs :=
  { baseInputs with magmoms := some [1, 0] }

/-- Concrete input with all-zero magnetic moments and non-primitive
symmetrisation setting. -/
def inpMagZero : Inputs :=
  { baseInputs with magmoms := some [0, 0] }

/-- Concrete input with matching Born charges for a "vasp" run, with a
nonzero symmetrised charge. -/
def inpBornOk : Inputs :=
  { baseInputs with born := some [1, 2], epsilonStatic := some 1, symBorns := [1, 0] }

/-- Concrete input on which both corrective passes run and the refit's
FORCE_CONSTANTS artifact is missing. -/
def inpStuckFail : Inputs :=
  { baseInputs with freqsPrimary := [-1], freqsHiphive := [-1], fcCutoff := none }

/-! ## Helper lemmas -/

theorem arangeAux_mem_bounds {fuel : Nat} {t stop step x : ℤ}
    (hstep : 0 < step) (hx : x ∈ arangeAux fuel t stop step) :
    t ≤ x ∧ x < stop := by
  induction fuel generalizing t with
  | zero => simp [arangeAux] at hx
  | succ n ih =>
      rw [arangeAux] at hx
      by_cases h : t < stop
      · rw [if_pos h] at hx
        rcases List.mem_cons.mp hx with rfl | hmem
        · exact ⟨le_refl x, h⟩
        · obtain ⟨h1, h2⟩ := ih hmem
          exact ⟨by linarith, h2⟩
      · rw [if_neg h] at hx
        simp at hx

theorem arange_mem_bounds {a b s x : ℤ} (hx : x ∈ arange a b s) :
    a ≤ x ∧ x < b := by
  rw [arange] at hx
  by_cases h : 0 < s
  · rw [if_pos h] at hx
    exact arangeAux_mem_bounds h hx
  · rw [if_neg h] at hx
    simp at hx

theorem correctivePasses_append (a b : List Ev) :
    correctivePasses (a ++ b) = correctivePasses a + correctivePasses b := by
  simp [correctivePasses, List.filter_append]

theorem correctivePasses_cutoff (inp : Inputs) (exits : List ℤ)
    (b : Option (List ℚ)) (e : Option ℚ) :
    correctivePasses (cutoffPass inp exits b e).1 = 1 := by
  unfold cutoffPass
  split
  · simp [correctivePasses, List.filter_append, isCorrectivePassStart, pheasyCalls]
  · split
    · simp [correctivePasses, List.filter_append, isCorrectivePassStart, pheasyCalls]
    · simp [correctivePasses, List.filter_append, isCorrectivePassStart, pheasyCalls,
        dosStage]

theorem correctivePasses_hiphive (inp : Inputs) (exits : List ℤ) (fc : ℚ)
    (ip : Bool) (b : Option (List ℚ)) (e : Option ℚ) :
    correctivePasses (hiphiveStage inp exits fc ip b e).1 ≤ 2 := by
  unfold hiphiveStage
  have hc := correctivePasses_cutoff inp exits b e
  split
  · rw [correctivePasses_append, hc]
    simp [correctivePasses, isCorrectivePassStart, hiphiveEvents]
  · rw [correctivePasses_append]
    simp [correctivePasses, isCorrectivePassStart, hiphiveEvents, dosStage]

theorem correctivePasses_band (inp : Inputs) (exits : List ℤ) (fc : ℚ)
    (b : Option (List ℚ)) (e : Option ℚ) :
    correctivePasses (bandStage inp exits fc b e).1 ≤ 2 := by
  unfold bandStage
  have hh := correctivePasses_hiphive inp exits fc true b e
  split
  · simp [correctivePasses, isCorrectivePassStart]
  · split
    · rw [correctivePasses_append]
      have hz : correctivePasses [Ev.kpathResolve inp.kpathScheme,
          Ev.runBandStructure inp.bandStructureEigenvectors] = 0 := by
        simp [correctivePasses, isCorrectivePassStart]
      omega
    · rw [correctivePasses_append]
      simp [correctivePasses, isCorrectivePassStart, dosStage]

theorem correctivePasses_solver (inp : Inputs) (exits : List ℤ)
    (b : Option (List ℚ)) (e : Option ℚ) :
    correctivePasses (solverStage inp exits b e).1 ≤ 2 := by
  unfold solverStage
  split
  · simp [correctivePasses, List.filter_append, isCorrectivePassStart, pheasyCalls]
  · rw [correctivePasses_append]
    rename_i fc2 heq
    have hb := correctivePasses_band inp exits fc2 b e
    have hz : correctivePasses (pheasyCalls 1 exits
        ++ [Ev.parseForceConstants "FORCE_CONSTANTS", Ev.savePhonopyYaml]) = 0 := by
      simp [correctivePasses, List.filter_append, isCorrectivePassStart, pheasyCalls]
    omega

theorem correctivePasses_born (inp : Inputs) :
    correctivePasses (bornStage inp).1 = 0 := by
  unfold bornStage
  repeat' split
  all_goals simp [correctivePasses, isCorrectivePassStart]

theorem correctivePasses_setup (mm : Option (List ℤ)) :
    correctivePasses (setupEvents mm) = 0 := by
  simp [setupEvents, correctivePasses, isCorrectivePassStart]

theorem dosStage_ok (inp : Inputs) (i : Bool) (b : Option (List ℚ)) (e : Option ℚ)
    (d : Doc) (h : (dosStage inp i b e).2 = Except.ok d) :
    d = buildDoc inp i b e ∧ Ev.runMeshDos ∈ (dosStage inp i b e).1 := by
  simp [dosStage] at h ⊢
  exact h.symm

theorem cutoffPass_ok (inp : Inputs) (exits : List ℤ) (b : Option (List ℚ))
    (e : Option ℚ) (d : Doc) (h : (cutoffPass inp exits b e).2 = Except.ok d) :
    (∃ imag, d = buildDoc inp imag b e) ∧
    Ev.runMeshDos ∈ (cutoffPass inp exits b e).1 := by
  unfold cutoffPass at h ⊢
  rcases hfc : inp.fcCutoff with _ | fc2
  · rw [hfc] at h
    simp at h
  · rw [hfc] at h
    cases hk : getKpath inp.kpathScheme with
    | error e2 =>
        rw [hk] at h
        simp at h
    | ok u =>
        rw [hk] at h
        have hd : d = buildDoc inp (imagCheck inp inp.freqsCutoff) b e := by
          have h2 : Except.ok (buildDoc inp (imagCheck inp inp.freqsCutoff) b e)
              = Except.ok d := h
          exact (Except.ok.injEq _ _ ▸ h2).symm
        refine ⟨⟨imagCheck inp inp.freqsCutoff, hd⟩, ?_⟩
        simp [dosStage]

theorem hiphiveStage_ok (inp : Inputs) (exits : List ℤ) (fc : ℚ) (ip : Bool)
    (b : Option (List ℚ)) (e : Option ℚ) (d : Doc)
    (h : (hiphiveStage inp exits fc ip b e).2 = Except.ok d) :
    (∃ imag, d = buildDoc inp imag b e) ∧
    Ev.runMeshDos ∈ (hiphiveStage inp exits fc ip b e).1 := by
  unfold hiphiveStage at h ⊢
  by_cases hi : imagCheck inp inp.freqsHiphive = true
  · rw [if_pos hi] at h ⊢
    obtain ⟨hd, hmem⟩ := cutoffPass_ok inp exits b e d h
    exact ⟨hd, List.mem_append.mpr (Or.inr hmem)⟩
  · rw [if_neg hi] at h ⊢
    obtain ⟨hd, hmem⟩ := dosStage_ok inp ip b e d h
    exact ⟨⟨ip, hd⟩, List.mem_append.mpr (Or.inr hmem)⟩

theorem bandStage_ok (inp : Inputs) (exits : List ℤ) (fc : ℚ)
    (b : Option (List ℚ)) (e : Option ℚ) (d : Doc)
    (h : (bandStage inp exits fc b e).2 = Except.ok d) :
    (∃ imag, d = buildDoc inp imag b e) ∧
    Ev.runMeshDos ∈ (bandStage inp exits fc b e).1 := by
  unfold bandStage at h ⊢
  cases hk : getKpath inp.kpathScheme with
  | error e2 =>
      rw [hk] at h
      simp at h
  | ok u =>
      rw [hk] at h
      by_cases hi : imagCheck inp inp.freqsPrimary = true
      · rw [if_pos hi] at h ⊢
        obtain ⟨hd, hmem⟩ := hiphiveStage_ok inp exits fc true b e d h
        exact ⟨hd, List.mem_append.mpr (Or.inr hmem)⟩
      · rw [if_neg hi] at h ⊢
        obtain ⟨hd, hmem⟩ := dosStage_ok inp false b e d h
        exact ⟨⟨false, hd⟩, List.mem_append.mpr (Or.inr hmem)⟩

theorem solverStage_ok (inp : Inputs) (exits : List ℤ)
    (b : Option (List ℚ)) (e : Option ℚ) (d : Doc)
    (h : (solverStage inp exits b e).2 = Except.ok d) :
    (∃ imag, d = buildDoc inp imag b e) ∧
    Ev.runMeshDos ∈ (solverStage inp exits b e).1 := by
  unfold solverStage at h ⊢
  rcases hfc : inp.fcPrimary with _ | fc
  · rw [hfc] at h
    simp at h
  · rw [hfc] at h
    obtain ⟨hd, hmem⟩ := bandStage_ok inp exits fc b e d h
    exact ⟨hd, List.mem_append.mpr (Or.inr hmem)⟩

theorem runPipeline_ok (inp : Inputs) (exits : List ℤ) (d : Doc)
    (h : (runPipeline inp exits).2 = Except.ok d) :
    (∃ imag trB borns eps, bornStage inp = (trB, Except.ok (borns, eps)) ∧
      d = buildDoc inp imag borns eps) ∧
    Ev.runMeshDos ∈ (runPipeline inp exits).1 := by
  unfold runPipeline at h ⊢
  cases hf : getFactor inp.code with
  | error e0 =>
      rw [hf] at h
      simp at h
  | ok f =>
      rw [hf] at h
      cases hm : magmomStage inp with
      | error e0 =>
          rw [hm] at h
          simp at h
      | ok cm =>
          rw [hm] at h
          rcases hB : bornStage inp with ⟨trB, rB⟩
          rw [hB] at h
          cases rB with
          | error e0 => simp at h
          | ok be =>
              rcases be with ⟨borns, eps⟩
              obtain ⟨⟨imag, hd⟩, hmem⟩ := solverStage_ok inp exits borns eps d h
              refine ⟨⟨imag, trB, borns, eps, rfl, hd⟩, ?_⟩
              exact List.mem_append.mpr (Or.inr hmem)

theorem setNac_not_mem_cutoff (inp : Inputs) (exits : List ℤ)
    (b : Option (List ℚ)) (e : Option ℚ) :
    Ev.setNac ∉ (cutoffPass inp exits b e).1 := by
  unfold cutoffPass
  repeat' split
  all_goals simp [pheasyCalls, dosStage]

theorem setNac_not_mem_hiphive (inp : Inputs) (exits : List ℤ) (fc : ℚ)
    (ip : Bool) (b : Option (List ℚ)) (e : Option ℚ) :
    Ev.setNac ∉ (hiphiveStage inp exits fc ip b e).1 := by
  unfold hiphiveStage
  split
  all_goals simp [hiphiveEvents, dosStage, setNac_not_mem_cutoff]

theorem setNac_not_mem_band (inp : Inputs) (exits : List ℤ) (fc : ℚ)
    (b : Option (List ℚ)) (e : Option ℚ) :
    Ev.setNac ∉ (bandStage inp exits fc b e).1 := by
  unfold bandStage
  repeat' split
  all_goals simp [dosStage, setNac_not_mem_hiphive]

theorem setNac_not_mem_solver (inp : Inputs) (exits : List ℤ)
    (b : Option (List ℚ)) (e : Option ℚ) :
    Ev.setNac ∉ (solverStage inp exits b e).1 := by
  unfold solverStage
  split
  all_goals simp [pheasyCalls, setNac_not_mem_band]

theorem setNac_not_mem_setup (mm : Option (List ℤ)) :
    Ev.setNac ∉ setupEvents mm := by
  simp [setupEvents]

theorem pheasy_not_mem_setup (p i : Nat) (x : ℤ) (mm : Option (List ℤ)) :
    Ev.pheasyCall p i x ∉ setupEvents mm := by
  simp [setupEvents]

theorem pheasy_not_mem_born (p i : Nat) (x : ℤ) (inp : Inputs) :
    Ev.pheasyCall p i x ∉ (bornStage inp).1 := by
  unfold bornStage
  repeat' split
  all_goals simp

/-! ## Claim theorems -/

/-- C1 counterexample: with a nominal displacement count of 2 and an
incoming sample count of 2 (the exact expected count, not expected plus
one), the claim says the dataset is used unmodified; `accumulateForces`
nevertheless subtracts the final sample's forces and drops it. -/
theorem c1_counterexample :
    ([[0], [1]] : List (List ℤ)).length ≠ 2 + 1 ∧
    accumulateForces 2 [[0], [1]] ≠ ([[0], [1]] : List (List ℤ)) ∧
    accumulateForces 2 [[0], [1]] = [[-1]] := by
  exact ⟨by decide, by decide, by decide⟩

/-- C1 (amended): `accumulateForces` treats the final sample as a
zero-displacement baseline — subtracting its forces from every other sample
and dropping it from the working dataset — exactly when the nominal
displacement count `f_disp_n1` is at least one, irrespective of the incoming
sample count; only when the nominal scheme yields no displacements is the
dataset used unmodified. -/
theorem c1_baseline_drift_correction (n : Nat) (forces : List (List ℤ))
    (hne : forces ≠ []) :
    (1 ≤ n →
      (accumulateForces n forces).length + 1 = forces.length ∧
      ∀ i (hi : i < (accumulateForces n forces).length),
        ∃ hj : i < forces.length,
          (accumulateForces n forces).get ⟨i, hi⟩
            = zipSub (forces.get ⟨i, hj⟩) (forces.getLast hne)) ∧
    (n = 0 → accumulateForces n forces = forces) := by
  have hlen : 0 < forces.length := List.length_pos.mpr hne
  constructor
  · intro hn
    have hcond : ¬ n < 1 := by omega
    have heq : accumulateForces n forces
        = (forces.map (fun f => zipSub f (forces.getLast?.getD []))).dropLast := by
      simp [accumulateForces, hcond]
    constructor
    · rw [heq, List.length_dropLast, List.length_map]
      omega
    · intro i hi
      have hi2 : i < forces.length - 1 := by
        rw [heq, List.length_dropLast, List.length_map] at hi
        exact hi
      refine ⟨by omega, ?_⟩
      rw [List.get_of_eq heq ⟨i, hi⟩]
      simp [List.get_eq_getElem, List.getElem_dropLast, List.getElem_map,
        List.getLast?_eq_getLast forces hne]
  · intro h0
    simp [accumulateForces, h0]

theorem c1_baseline_drift_correction_witness :
    (accumulateForces 1 [[5], [3]]).length + 1 = ([[5], [3]] : List (List ℤ)).length ∧
    accumulateForces 1 [[5], [3]] = [[2]] :=
  ⟨((c1_baseline_drift_correction 1 [[5], [3]] (by decide)).1 (by decide)).1, by decide⟩

/-- C2 counterexample: when both corrective passes run and the refit's
FORCE_CONSTANTS artifact is missing, exactly two corrective passes were
opened but the pipeline aborts with an uncaught error and never reaches the
DOS/thermodynamics stage — the claim's "always proceeds to
DOS/thermodynamics" fails on the code. -/
theorem c2_counterexample :
    correctivePasses (runPipeline inpStuckFail [0, 0, 0, 0]).1 = 2 ∧
    Ev.runMeshDos ∉ (runPipeline inpStuckFail [0, 0, 0, 0]).1 ∧
    (runPipeline inpStuckFail [0, 0, 0, 0]).2
      = Except.error "FORCE_CONSTANTS missing or malformed" := by
  exact ⟨rfl, by decide, rfl⟩

/-- C2 (amended): for every input, the refinement logic of `runPipeline`
opens at most two corrective passes (one hiphive rotational-sum-rule pass,
one reduced-cutoff refit pass) and never iterates unboundedly; whenever a
document is produced the pipeline has proceeded to the DOS/thermodynamics
stage (a missing refit artifact instead aborts the run). -/
theorem c2_refinement_bounded (inp : Inputs) (exits : List ℤ) :
    correctivePasses (runPipeline inp exits).1 ≤ 2 ∧
    (∀ d, (runPipeline inp exits).2 = Except.ok d →
      Ev.runMeshDos ∈ (runPipeline inp exits).1) := by
  constructor
  · unfold runPipeline
    cases hf : getFactor inp.code with
    | error e0 => simp [correctivePasses, isCorrectivePassStart]
    | ok f =>
        cases hm : magmomStage inp with
        | error e0 => simp [correctivePasses, isCorrectivePassStart]
        | ok cm =>
            rcases hB : bornStage inp with ⟨trB, rB⟩
            have htrB : correctivePasses trB = 0 := by
              have hcb := correctivePasses_born inp
              rw [hB] at hcb
              exact hcb
            cases rB with
            | error e0 =>
                show correctivePasses (setupEvents cm ++ trB) ≤ 2
                rw [correctivePasses_append, correctivePasses_setup, htrB]
                omega
            | ok be =>
                rcases be with ⟨borns, eps⟩
                show correctivePasses
                    (setupEvents cm ++ trB ++ (solverStage inp exits borns eps).1) ≤ 2
                rw [correctivePasses_append, correctivePasses_append,
                  correctivePasses_setup, htrB]
                have hs := correctivePasses_solver inp exits borns eps
                omega
  · intro d hd
    exact (runPipeline_ok inp exits d hd).2

theorem c2_refinement_bounded_witness :
    Ev.runMeshDos ∈ (runPipeline baseInputs [0, 0, 0, 0]).1 :=
  (c2_refinement_bounded baseInputs [0, 0, 0, 0]).2
    (buildDoc baseInputs false none none) rfl

/-- C3: whenever Born charges and a dielectric tensor are both supplied and
the Born-charge count differs from the atom count, `runPipeline` ends in an
error with no pheasy invocation in its trace, and — whenever execution
reaches the Born check at all — the error is the mismatch report. -/
theorem c3_born_mismatch_aborts_before_solver (inp : Inputs) (exits : List ℤ)
    (b : List ℚ) (e : ℚ) (hb : inp.born = some b) (he : inp.epsilonStatic = some e)
    (hmis : inp.structureLen ≠ b.length) :
    (∀ p i x, Ev.pheasyCall p i x ∉ (runPipeline inp exits).1) ∧
    (∃ msg, (runPipeline inp exits).2 = Except.error msg) ∧
    (∀ f, getFactor inp.code = Except.ok f →
      ∀ mm, magmomStage inp = Except.ok mm →
        (runPipeline inp exits).2
          = Except.error "Number of born charges does not agree with number of atoms") := by
  have hBs : bornStage inp
      = ([], Except.error "Number of born charges does not agree with number of atoms") := by
    unfold bornStage
    rw [hb, he]
    simp [hmis]
  refine ⟨?_, ?_, ?_⟩
  · intro p i x
    unfold runPipeline
    cases hf : getFactor inp.code with
    | error e0 => simp
    | ok f =>
        cases hm : magmomStage inp with
        | error e0 => simp
        | ok cm =>
            rw [hBs]
            simp [setupEvents]
  · unfold runPipeline
    cases hf : getFactor inp.code with
    | error e0 => exact ⟨e0, rfl⟩
    | ok f =>
        cases hm : magmomStage inp with
        | error e0 => exact ⟨e0, rfl⟩
        | ok cm =>
            rw [hBs]
            exact ⟨_, rfl⟩
  · intro f hf mm hm
    unfold runPipeline
    rw [hf, hm, hBs]

theorem c3_born_mismatch_aborts_before_solver_witness :
    (runPipeline inpMismatch [0, 0, 0, 0]).2
      = Except.error "Number of born charges does not agree with number of atoms" :=
  (c3_born_mismatch_aborts_before_solver inpMismatch [0, 0, 0, 0] [1, 2, 3] 1
    rfl rfl (by decide)).2.2 vaspToTHz rfl none rfl

theorem solverStage_exits_irrel (inp : Inputs) (e1 e2 : List ℤ)
    (b : Option (List ℚ)) (e : Option ℚ) :
    (solverStage inp e1 b e).2 = (solverStage inp e2 b e).2 := by
  unfold solverStage bandStage hiphiveStage cutoffPass
  repeat' split
  all_goals rfl

/-- C4 counterexample: all four primary pheasy invocations exit with the
nonzero status 1, yet with a present FORCE_CONSTANTS artifact the pipeline
ignores the exit codes and produces a result document. -/
theorem c4_counterexample :
    Ev.pheasyCall 1 0 1 ∈ (runPipeline baseInputs [1, 1, 1, 1]).1 ∧
    (runPipeline baseInputs [1, 1, 1, 1]).2
      = Except.ok (buildDoc baseInputs false none none) := by
  exact ⟨by decide, rfl⟩

/-- C4 (amended): the exit codes of the pheasy invocations are ignored — the
pipeline result is independent of them — and the primary fit is fatal
exactly through its output artifact: when FORCE_CONSTANTS is missing or
malformed after the primary invocations, the pipeline ends in an error and
no document is produced. -/
theorem c4_solver_failure (inp : Inputs) (exits1 exits2 : List ℤ) :
    (runPipeline inp exits1).2 = (runPipeline inp exits2).2 ∧
    (inp.fcPrimary = none →
      ∀ f, getFactor inp.code = Except.ok f →
      ∀ mm, magmomStage inp = Except.ok mm →
      ∀ trB r, bornStage inp = (trB, Except.ok r) →
        (runPipeline inp exits1).2
          = Except.error "FORCE_CONSTANTS missing or malformed") := by
  constructor
  · unfold runPipeline
    repeat' split
    all_goals first
      | rfl
      | apply solverStage_exits_irrel
  · intro h0 f hf mm hm trB r hB
    rcases r with ⟨borns, eps⟩
    unfold runPipeline
    rw [hf, hm, hB]
    show (solverStage inp exits1 borns eps).2 = _
    unfold solverStage
    rw [h0]

theorem c4_solver_failure_witness :
    (runPipeline inpNoFC [0, 0, 0, 0]).2
      = Except.error "FORCE_CONSTANTS missing or malformed" :=
  (c4_solver_failure inpNoFC [0, 0, 0, 0] [2, 2, 2, 2]).2 rfl vaspToTHz rfl none rfl
    [] (none, none) rfl

/-- C5: the imaginary-mode check used at every band-structure evaluation
site sets the flag true exactly when some frequency branch value lies below
`-ε`, where ε is the caller's `tol_imaginary_modes` option and defaults to
1e-5 in frequency units. -/
theorem c5_imaginary_mode_check (inp : Inputs) (freqs : List ℚ) :
    (imagCheck inp freqs = true ↔
      ∃ f ∈ freqs, f < -(inp.tolImaginary.getD (mkRat 1 100000))) ∧
    (inp.tolImaginary = none →
      imagCheck inp freqs = hasImaginaryFreq freqs (mkRat 1 100000)) := by
  constructor
  · simp [imagCheck, hasImaginaryFreq]
  · intro h
    unfold imagCheck
    rw [h]
    rfl

theorem c5_imaginary_mode_check_witness :
    (imagCheck baseInputs [-(1 : ℚ)]
        = hasImaginaryFreq [-(1 : ℚ)] (mkRat 1 100000)) ∧
    imagCheck baseInputs [-(1 : ℚ)] = true :=
  ⟨(c5_imaginary_mode_check baseInputs [-(1 : ℚ)]).2 rfl,
    (c5_imaginary_mode_check baseInputs [-(1 : ℚ)]).1.mpr
      ⟨-(1 : ℚ), by decide, by decide⟩⟩

/-- C6 counterexample: two runs that differ only in the displacement/force
dataset produce the identical corrective hiphive fit event (same cluster
cutoff, sum-rule families, ridge parameter, and the same parameterisation
input, namely the parsed FORCE_CONSTANTS artifact): the first corrective
pass does not fit its parameterisation from the dataset. -/
theorem c6_counterexample :
    inpImagA.forces ≠ inpImagB.forces ∧
    (hiphiveFitEvents (runPipeline inpImagA [0, 0, 0, 0]).1).length = 1 ∧
    hiphiveFitEvents (runPipeline inpImagA [0, 0, 0, 0]).1
      = hiphiveFitEvents (runPipeline inpImagB [0, 0, 0, 0]).1 := by
  exact ⟨by decide, rfl, rfl⟩

theorem hiphiveEvents_sub_hiphiveStage (inp : Inputs) (exits : List ℤ) (fc : ℚ)
    (ip : Bool) (b : Option (List ℚ)) (e : Option ℚ) :
    ∀ x ∈ hiphiveEvents inp fc, x ∈ (hiphiveStage inp exits fc ip b e).1 := by
  intro x hx
  unfold hiphiveStage
  split
  · exact List.mem_append.mpr (Or.inl hx)
  · exact List.mem_append.mpr (Or.inl hx)

/-- C6 (amended): whenever imaginary modes are detected after the primary
fit, the first corrective pass builds the pairwise cluster expansion at the
maximum valid cutoff for the supercell (`estimate_maximum_cutoff - 0.01`),
extracts an independent parameterisation from the primary fit's
FORCE_CONSTANTS artifact (not from the displacement dataset), enforces the
Huang and Born-Huang rotational sum rules via a ridge-regularised correction
with `alpha = 1e-6`, reconstructs a corrected IFC tensor, and recomputes the
band structure with eigenvectors enabled. -/
theorem c6_hiphive_pass (inp : Inputs) (exits : List ℤ) (fc : ℚ)
    (hfc : inp.fcPrimary = some fc)
    (f : ℚ) (hf : getFactor inp.code = Except.ok f)
    (mm : Option (List ℤ)) (hm : magmomStage inp = Except.ok mm)
    (trB : List Ev) (r : Option (List ℚ) × Option ℚ)
    (hB : bornStage inp = (trB, Except.ok r))
    (hk : getKpath inp.kpathScheme = Except.ok ())
    (himag : imagCheck inp inp.freqsPrimary = true) :
    Ev.hiphiveFit [inp.maxCutoffEstimate - mkRat 1 100] ["Huang", "Born-Huang"]
      (mkRat 1 1000000) fc ∈ (runPipeline inp exits).1 ∧
    Ev.runBandStructure true ∈ (runPipeline inp exits).1 := by
  rcases r with ⟨borns, eps⟩
  have hsub : ∀ x ∈ hiphiveEvents inp fc, x ∈ (runPipeline inp exits).1 := by
    intro x hx
    unfold runPipeline
    rw [hf, hm, hB]
    show x ∈ setupEvents mm ++ trB ++ (solverStage inp exits borns eps).1
    apply List.mem_append.mpr
    right
    unfold solverStage
    rw [hfc]
    show x ∈ pheasyCalls 1 exits
      ++ [Ev.parseForceConstants "FORCE_CONSTANTS", Ev.savePhonopyYaml]
      ++ (bandStage inp exits fc borns eps).1
    apply List.mem_append.mpr
    right
    unfold bandStage
    rw [hk, if_pos himag]
    show x ∈ [Ev.kpathResolve inp.kpathScheme,
      Ev.runBandStructure inp.bandStructureEigenvectors]
      ++ (hiphiveStage inp exits fc true borns eps).1
    apply List.mem_append.mpr
    right
    exact hiphiveEvents_sub_hiphiveStage inp exits fc true borns eps x hx
  exact ⟨hsub _ (by simp [hiphiveEvents]), hsub _ (by simp [hiphiveEvents])⟩

theorem c6_hiphive_pass_witness :
    Ev.hiphiveFit [inpImagA.maxCutoffEstimate - mkRat 1 100] ["Huang", "Born-Huang"]
      (mkRat 1 1000000) 1 ∈ (runPipeline inpImagA [0, 0, 0, 0]).1 :=
  (c6_hiphive_pass inpImagA [0, 0, 0, 0] 1 rfl vaspToTHz rfl none rfl
    [] (none, none) rfl rfl (by decide)).1

theorem getKpath_error_iff (s : String) :
    getKpath s = Except.error "Unexpected kpath_scheme" ↔
    s ∉ ["setyawan_curtarolo", "latimer_munro", "hinuma", "seekpath"] := by
  unfold getKpath
  by_cases h1 : s = "setyawan_curtarolo" ∨ s = "latimer_munro" ∨ s = "hinuma"
  · rw [if_pos h1]
    simp
    tauto
  · rw [if_neg h1]
    by_cases h2 : s = "seekpath"
    · rw [if_pos h2]
      simp
      tauto
    · rw [if_neg h2]
      simp
      tauto

/-- C7 counterexample: with the unrecognised scheme name "foo", the run ends
in the path-resolution `ValueError`, yet the structure files, the dataset
pickles and the primary solver's IFC artifact parse are already in the
trace — artifacts have been written before the error. -/
theorem c7_counterexample :
    (runPipeline inpBadPath [0, 0, 0, 0]).2 = Except.error "Unexpected kpath_scheme" ∧
    Ev.writePoscar ∈ (runPipeline inpBadPath [0, 0, 0, 0]).1 ∧
    Ev.writeSposcar ∈ (runPipeline inpBadPath [0, 0, 0, 0]).1 ∧
    Ev.writeDispPickle ∈ (runPipeline inpBadPath [0, 0, 0, 0]).1 ∧
    Ev.writeForcePickle ∈ (runPipeline inpBadPath [0, 0, 0, 0]).1 ∧
    Ev.parseForceConstants "FORCE_CONSTANTS" ∈ (runPipeline inpBadPath [0, 0, 0, 0]).1 := by
  exact ⟨rfl, by decide, by decide, by decide, by decide, by decide⟩

/-- C7 (amended): for every unrecognised path-scheme name (one outside the
closed set of recognised conventions) on a run that reaches path resolution,
the pipeline ends in the `ValueError` raised by `get_kpath`; however, the
structure files, the displacement/force dataset pickles and the primary
solver invocation (with the parse of its IFC artifact) have already happened
by then, so intermediate artifacts HAVE been written. -/
theorem c7_unknown_scheme (inp : Inputs) (exits : List ℤ)
    (hns : inp.kpathScheme ∉ ["setyawan_curtarolo", "latimer_munro", "hinuma", "seekpath"])
    (f : ℚ) (hf : getFactor inp.code = Except.ok f)
    (mm : Option (List ℤ)) (hm : magmomStage inp = Except.ok mm)
    (trB : List Ev) (r : Option (List ℚ) × Option ℚ)
    (hB : bornStage inp = (trB, Except.ok r))
    (fc : ℚ) (hfc : inp.fcPrimary = some fc) :
    (runPipeline inp exits).2 = Except.error "Unexpected kpath_scheme" ∧
    Ev.writePoscar ∈ (runPipeline inp exits).1 ∧
    Ev.writeSposcar ∈ (runPipeline inp exits).1 ∧
    Ev.writeDispPickle ∈ (runPipeline inp exits).1 ∧
    Ev.writeForcePickle ∈ (runPipeline inp exits).1 ∧
    Ev.parseForceConstants "FORCE_CONSTANTS" ∈ (runPipeline inp exits).1 := by
  rcases r with ⟨borns, eps⟩
  have hk : getKpath inp.kpathScheme = Except.error "Unexpected kpath_scheme" :=
    (getKpath_error_iff inp.kpathScheme).mpr hns
  have hsetup : ∀ x ∈ setupEvents mm, x ∈ (runPipeline inp exits).1 := by
    intro x hx
    unfold runPipeline
    rw [hf, hm, hB]
    show x ∈ setupEvents mm ++ trB ++ (solverStage inp exits borns eps).1
    apply List.mem_append.mpr
    left
    exact List.mem_append.mpr (Or.inl hx)
  refine ⟨?_, ?_, ?_, ?_, ?_, ?_⟩
  · unfold runPipeline
    rw [hf, hm, hB]
    show (solverStage inp exits borns eps).2 = _
    unfold solverStage
    rw [hfc]
    show (bandStage inp exits fc borns eps).2 = _
    unfold bandStage
    rw [hk]
  · exact hsetup _ (by simp [setupEvents])
  · exact hsetup _ (by simp [setupEvents])
  · exact hsetup _ (by simp [setupEvents])
  · exact hsetup _ (by simp [setupEvents])
  · unfold runPipeline
    rw [hf, hm, hB]
    show Ev.parseForceConstants "FORCE_CONSTANTS"
      ∈ setupEvents mm ++ trB ++ (solverStage inp exits borns eps).1
    apply List.mem_append.mpr
    right
    unfold solverStage
    rw [hfc]
    show Ev.parseForceConstants "FORCE_CONSTANTS"
      ∈ pheasyCalls 1 exits
        ++ [Ev.parseForceConstants "FORCE_CONSTANTS", Ev.savePhonopyYaml]
        ++ (bandStage inp exits fc borns eps).1
    apply List.mem_append.mpr
    left
    apply List.mem_append.mpr
    right
    simp

theorem c7_unknown_scheme_witness :
    (runPipeline inpBadPath [0, 0, 0, 0]).2 = Except.error "Unexpected kpath_scheme" :=
  (c7_unknown_scheme inpBadPath [0, 0, 0, 0] (by decide) vaspToTHz rfl none rfl
    [] (none, none) rfl 1 rfl).1

/-- C8: on every run that produces a document, the four thermodynamic lists
are index-aligned maps over the stored temperature grid; the grid is the
half-open `np.arange` grid `[t_min, t_max)` with stride `t_step` (defaults
0, 500, 10); all five lists have equal length and position i of each array
corresponds to the i-th grid temperature. -/
theorem c8_thermo_alignment (inp : Inputs) (exits : List ℤ) (d : Doc)
    (h : (runPipeline inp exits).2 = Except.ok d) :
    d.temperatures = arange (inp.tmin.getD 0) (inp.tmax.getD 500) (inp.tstep.getD 10) ∧
    d.freeEnergies = d.temperatures.map inp.helmholtz ∧
    d.entropies = d.temperatures.map inp.entropyFn ∧
    d.internalEnergies = d.temperatures.map inp.internalFn ∧
    d.heatCapacities = d.temperatures.map inp.heatCapFn ∧
    (d.freeEnergies.length = d.temperatures.length ∧
      d.entropies.length = d.temperatures.length ∧
      d.internalEnergies.length = d.temperatures.length ∧
      d.heatCapacities.length = d.temperatures.length) ∧
    (∀ i (hi : i < d.temperatures.length),
      ∃ hF : i < d.freeEnergies.length,
        d.freeEnergies.get ⟨i, hF⟩ = inp.helmholtz (d.temperatures.get ⟨i, hi⟩)) ∧
    (∀ t ∈ d.temperatures, inp.tmin.getD 0 ≤ t ∧ t < inp.tmax.getD 500) := by
  obtain ⟨⟨imag, trB, borns, eps, hB, hd⟩, _⟩ := runPipeline_ok inp exits d h
  subst hd
  refine ⟨rfl, rfl, rfl, rfl, rfl, ?_, ?_, ?_⟩
  · simp [buildDoc]
  · intro i hi
    have hF : i < (buildDoc inp imag borns eps).freeEnergies.length := by
      simp [buildDoc] at hi ⊢
      exact hi
    refine ⟨hF, ?_⟩
    simp [buildDoc, List.get_eq_getElem, List.getElem_map]
  · intro t ht
    have ht2 : t ∈ tempGrid inp := ht
    exact arange_mem_bounds ht2

theorem c8_thermo_alignment_witness :
    (buildDoc baseInputs false none none).temperatures
      = arange (baseInputs.tmin.getD 0) (baseInputs.tmax.getD 500)
          (baseInputs.tstep.getD 10) :=
  (c8_thermo_alignment baseInputs [0, 0, 0, 0]
    (buildDoc baseInputs false none none) rfl).1

/-- C9: with magnetic moments present and `use_symmetrized_structure` other
than "primitive": a nonzero moment makes the pipeline end in an error before
the `Phonopy` object is constructed (with the dedicated `ValueError`
whenever the conversion-factor lookup succeeded), while all-zero moments are
silently discarded — the `Phonopy` object is constructed with no moments —
and processing continues. -/
theorem c9_magmom_guard (inp : Inputs) (exits : List ℤ) (ms : List ℤ)
    (hm : inp.magmoms = some ms)
    (hs : inp.useSymmetrizedStructure ≠ some "primitive") :
    ((∃ m ∈ ms, m ≠ 0) →
      (∃ e, (runPipeline inp exits).2 = Except.error e) ∧
      (∀ mm, Ev.constructPhonopy mm ∉ (runPipeline inp exits).1) ∧
      (∀ f, getFactor inp.code = Except.ok f →
        (runPipeline inp exits).2 = Except.error
          "For materials with magnetic moments, use_symmetrized_structure must be primitive")) ∧
    ((∀ m ∈ ms, m = 0) →
      ∀ f, getFactor inp.code = Except.ok f →
        Ev.constructPhonopy none ∈ (runPipeline inp exits).1) := by
  constructor
  · intro hnz
    have hprop : ∃ x ∈ ms, ¬ x = 0 := by
      rcases hnz with ⟨m, hmem, hm0⟩
      exact ⟨m, hmem, hm0⟩
    have hmag : magmomStage inp = Except.error
        "For materials with magnetic moments, use_symmetrized_structure must be primitive" := by
      unfold magmomStage
      rw [hm]
      simp [hs, hprop]
    refine ⟨?_, ?_, ?_⟩
    · unfold runPipeline
      cases hf : getFactor inp.code with
      | error e0 => exact ⟨e0, rfl⟩
      | ok f =>
          rw [hmag]
          exact ⟨_, rfl⟩
    · intro mm
      unfold runPipeline
      cases hf : getFactor inp.code with
      | error e0 => simp
      | ok f =>
          rw [hmag]
          simp
    · intro f hf
      unfold runPipeline
      rw [hf, hmag]
  · intro hz f hf
    have hprop : ¬ ∃ x ∈ ms, ¬ x = 0 := by
      intro hx
      rcases hx with ⟨m, hmem, hm0⟩
      exact hm0 (hz m hmem)
    have hmag : magmomStage inp = Except.ok none := by
      unfold magmomStage
      rw [hm]
      simp [hs, hprop]
    unfold runPipeline
    rw [hf, hmag]
    rcases hB : bornStage inp with ⟨trB, rB⟩
    cases rB with
    | error e0 =>
        show Ev.constructPhonopy none ∈ setupEvents none ++ trB
        apply List.mem_append.mpr
        left
        simp [setupEvents]
    | ok be =>
        rcases be with ⟨borns, eps⟩
        show Ev.constructPhonopy none
          ∈ setupEvents none ++ trB ++ (solverStage inp exits borns eps).1
        apply List.mem_append.mpr
        left
        apply List.mem_append.mpr
        left
        simp [setupEvents]

theorem c9_magmom_guard_witness :
    (runPipeline inpMagBad [0, 0, 0, 0]).2 = Except.error
      "For materials with magnetic moments, use_symmetrized_structure must be primitive" ∧
    Ev.constructPhonopy none ∈ (runPipeline inpMagZero [0, 0, 0, 0]).1 :=
  ⟨((c9_magmom_guard inpMagBad [0, 0, 0, 0] [1, 0] rfl (by decide)).1
      ⟨1, by decide, by decide⟩).2.2 vaspToTHz rfl,
    (c9_magmom_guard inpMagZero [0, 0, 0, 0] [0, 0] rfl (by decide)).2
      (by decide) vaspToTHz rfl⟩

/-- C10: the NAC correction is attached exactly when Born charges and a
dielectric tensor are both supplied with matching count, the code is "vasp",
and some symmetrised Born charge is not close to zero; for any other code it
is never attached, while the symmetrised Born charges and dielectric are
still stored in the produced document whenever both inputs were supplied. -/
theorem c10_nac_attachment (inp : Inputs) (exits : List ℤ)
    (f : ℚ) (hf : getFactor inp.code = Except.ok f)
    (mm : Option (List ℤ)) (hm : magmomStage inp = Except.ok mm) :
    (∀ b, inp.born = some b → ∀ e, inp.epsilonStatic = some e →
      inp.structureLen = b.length →
      ((Ev.setNac ∈ (runPipeline inp exits).1 ↔
        (inp.code = "vasp" ∧ allBornsClose inp.symBorns = false)) ∧
      (∀ d, (runPipeline inp exits).2 = Except.ok d →
        d.born = some inp.symBorns ∧ d.epsilonStatic = some inp.symEps))) ∧
    ((inp.born = none ∨ inp.epsilonStatic = none) →
      Ev.setNac ∉ (runPipeline inp exits).1 ∧
      (∀ d, (runPipeline inp exits).2 = Except.ok d →
        d.born = none ∧ d.epsilonStatic = none)) ∧
    (inp.code ≠ "vasp" → Ev.setNac ∉ (runPipeline inp exits).1) := by
  refine ⟨?_, ?_, ?_⟩
  · intro b hb e he hlen
    by_cases hc : inp.code = "vasp" ∧ allBornsClose inp.symBorns = false
    · have hBs : bornStage inp
          = ([Ev.setNac], Except.ok (some inp.symBorns, some inp.symEps)) := by
        unfold bornStage
        rw [hb, he]
        simp [hlen, hc]
      constructor
      · constructor
        · intro _
          exact hc
        · intro _
          unfold runPipeline
          rw [hf, hm, hBs]
          show Ev.setNac ∈ setupEvents mm ++ [Ev.setNac]
            ++ (solverStage inp exits (some inp.symBorns) (some inp.symEps)).1
          apply List.mem_append.mpr
          left
          apply List.mem_append.mpr
          right
          simp
      · intro d hd
        obtain ⟨⟨imag, trB, borns, eps, hB2, hd2⟩, _⟩ := runPipeline_ok inp exits d hd
        rw [hBs] at hB2
        have hpair := (Prod.mk.injEq _ _ _ _).mp hB2.symm
        have hok := hpair.2
        have hbe : borns = some inp.symBorns ∧ eps = some inp.symEps := by
          have := (Except.ok.injEq _ _).mp hok
          exact ⟨congrArg Prod.fst this, congrArg Prod.snd this⟩
        subst hd2
        exact ⟨by rw [buildDoc, hbe.1], by rw [buildDoc, hbe.2]⟩
    · have hBs : bornStage inp
          = ([], Except.ok (some inp.symBorns, some inp.symEps)) := by
        unfold bornStage
        rw [hb, he]
        simp [hlen, hc]
      constructor
      · constructor
        · intro hmem
          exfalso
          revert hmem
          unfold runPipeline
          rw [hf, hm, hBs]
          intro hmem
          rcases List.mem_append.mp hmem with hmem2 | hmem3
          · rcases List.mem_append.mp hmem2 with hmem4 | hmem5
            · exact setNac_not_mem_setup mm hmem4
            · simp at hmem5
          · exact setNac_not_mem_solver inp exits _ _ hmem3
        · intro hcond
          exact absurd hcond hc
      · intro d hd
        obtain ⟨⟨imag, trB, borns, eps, hB2, hd2⟩, _⟩ := runPipeline_ok inp exits d hd
        rw [hBs] at hB2
        have hpair := (Prod.mk.injEq _ _ _ _).mp hB2.symm
        have hok := hpair.2
        have hbe : borns = some inp.symBorns ∧ eps = some inp.symEps := by
          have := (Except.ok.injEq _ _).mp hok
          exact ⟨congrArg Prod.fst this, congrArg Prod.snd this⟩
        subst hd2
        exact ⟨by rw [buildDoc, hbe.1], by rw [buildDoc, hbe.2]⟩
  · intro hor
    have hBs : bornStage inp = ([], Except.ok (none, none)) := by
      unfold bornStage
      rcases hob : inp.born with _ | b2
      · rfl
      · rcases hoe : inp.epsilonStatic with _ | e2
        · rfl
        · rcases hor with h1 | h2
          · rw [hob] at h1
            exact absurd h1 (by simp)
          · rw [hoe] at h2
            exact absurd h2 (by simp)
    constructor
    · unfold runPipeline
      rw [hf, hm, hBs]
      show Ev.setNac ∉ setupEvents mm ++ [] ++ (solverStage inp exits none none).1
      intro hmem
      rcases List.mem_append.mp hmem with h1 | h2
      · rcases List.mem_append.mp h1 with h3 | h4
        · exact setNac_not_mem_setup mm h3
        · simp at h4
      · exact setNac_not_mem_solver inp exits _ _ h2
    · intro d hd
      obtain ⟨⟨imag, trB, borns, eps, hB2, hd2⟩, _⟩ := runPipeline_ok inp exits d hd
      rw [hBs] at hB2
      have hpair := (Prod.mk.injEq _ _ _ _).mp hB2.symm
      have hok := hpair.2
      have hbe : borns = none ∧ eps = none := by
        have := (Except.ok.injEq _ _).mp hok
        exact ⟨congrArg Prod.fst this, congrArg Prod.snd this⟩
      subst hd2
      exact ⟨by rw [buildDoc, hbe.1], by rw [buildDoc, hbe.2]⟩
  · intro hcv
    have htrB : (bornStage inp).1 = [] := by
      unfold bornStage
      repeat' split
      all_goals simp_all
    unfold runPipeline
    cases hf2 : getFactor inp.code with
    | error e0 => simp
    | ok f2 =>
        cases hm2 : magmomStage inp with
        | error e0 => simp
        | ok cm =>
            rcases hB : bornStage inp with ⟨trB, rB⟩
            rw [hB] at htrB
            have htrB2 : trB = [] := htrB
            cases rB with
            | error e0 =>
                show Ev.setNac ∉ setupEvents cm ++ trB
                intro hmem
                rcases List.mem_append.mp hmem with h1 | h2
                · exact setNac_not_mem_setup cm h1
                · rw [htrB2] at h2
                  simp at h2
            | ok be =>
                rcases be with ⟨borns, eps⟩
                show Ev.setNac ∉ setupEvents cm ++ trB
                  ++ (solverStage inp exits borns eps).1
                intro hmem
                rcases List.mem_append.mp hmem with h1 | h2
                · rcases List.mem_append.mp h1 with h3 | h4
                  · exact setNac_not_mem_setup cm h3
                  · rw [htrB2] at h4
                    simp at h4
                · exact setNac_not_mem_solver inp exits _ _ h2

theorem c10_nac_attachment_witness :
    Ev.setNac ∈ (runPipeline inpBornOk [0, 0, 0, 0]).1 :=
  (((c10_nac_attachment inpBornOk [0, 0, 0, 0] vaspToTHz rfl none rfl).1
    [1, 2] rfl 1 rfl rfl).1).mpr ⟨rfl, by decide⟩

end Phonons
